import Mathlib

/-!
Shallow embedding of `src/video/out/vo_kitty.c` (the kitty terminal-graphics
video output driver).

Modelling conventions:
* C `int` values are modelled as `Int` (the values involved — terminal sizes,
  rectangle coordinates, file descriptors — are far from 32-bit overflow on
  every path a claim touches).
* External collaborators declared out of scope by the design
  (`terminal_get_size2`, `vo_get_src_dst_rects`, `mp_sws_scale`,
  `osd_draw_on_image`, `mp_image_alloc` internals) are passed in as explicit
  inputs / oracle records, so every driver function is a pure function of its
  state and those inputs.
* Side effects (terminal writes, warnings, shared-memory system calls) are
  returned as an explicit trace of `Op` events in program order.
* The shared-memory buffer pointer `priv->buffer` is modelled by `BufPtr`:
  `null` (C `NULL`), `mapFailed` (C `MAP_FAILED`, the non-null failure value
  `mmap` returns), or `mapped d` with `d : Nat → Nat` giving the byte at each
  offset of the mapped region.
-/

namespace VoKitty

/-- A rectangle, as mpv's `struct mp_rect` (x0, y0, x1, y1). -/
structure Rect where
  x0 : Int
  y0 : Int
  x1 : Int
  y1 : Int
deriving DecidableEq

/-- What `terminal_get_size2` reports: cells and pixel dimensions. -/
structure TermSize where
  rows : Int
  cols : Int
  px_width : Int
  px_height : Int
deriving DecidableEq

/-- A single-plane raster (the `mp_image` fields this driver reads):
pixel dimensions, the row stride of plane 0 in bytes, and the plane bytes. -/
structure Raster where
  w : Int
  h : Int
  stride0 : Nat
  plane0 : Nat → Nat

/-- The value of `priv->buffer`. -/
inductive BufPtr where
  | null
  | mapFailed
  | mapped (data : Nat → Nat)

/-- Observable effects of the driver, in program order: terminal writes,
log warnings, and the shared-memory system calls. -/
inductive Op where
  | warn (msg : String)
  | clear_screen
  | hide_cursor
  | restore_cursor
  | gotoxy (row col : Int)
  | gfx_cmd (w h : Int) (name : String)
  | flush
  | sws_scale
  | image_clear
  | osd_draw
  | os_shm_open_ok (fd : Int)
  | os_shm_open_fail
  | os_ftruncate (fd size : Int) (ok : Bool)
  | os_mmap_ok (size : Int)
  | os_mmap_fail (size : Int)
  | os_munmap (size : Int)
  | os_close (fd : Int)
  | os_shm_unlink
deriving DecidableEq

/-- The driver state: `struct priv` together with the `vo` fields this file
reads and writes (`vo->dwidth`, `vo->dheight`, `vo->config_ok`). -/
structure State where
  opt_width : Int
  opt_height : Int
  opt_top : Int
  opt_left : Int
  opt_clear : Bool
  fmt : Int
  mmap_fd : Int
  buffer : BufPtr
  skip_frame_draw : Bool
  left : Int
  top : Int
  width : Int
  height : Int
  num_cols : Int
  num_rows : Int
  canvas_ok : Bool
  src_rect : Rect
  dst_rect : Rect
  frame : Option Raster
  dwidth : Int
  dheight : Int
  config_ok : Bool

/-- `static const unsigned int depth = 4`. -/
def depth : Int := 4

/-- `#define TERMINAL_FALLBACK_PX_WIDTH 320`. -/
def TERMINAL_FALLBACK_PX_WIDTH : Int := 320

/-- `#define TERMINAL_FALLBACK_PX_HEIGHT 240`. -/
def TERMINAL_FALLBACK_PX_HEIGHT : Int := 240

/-- `#define SHM_NAME "/kitty_img"`. -/
def SHM_NAME : String := "/kitty_img"

/-- `#define SHM_NAME_BASE64 "a2l0dHlfaW1n"`. -/
def SHM_NAME_BASE64 : String := "a2l0dHlfaW1n"

/-- C `int` division truncates toward zero, which is `Int.tdiv`. -/
def cdiv (a b : Int) : Int := Int.tdiv a b

/-- `update_canvas_dimensions` (vo_kitty.c lines 93-123): query the terminal,
apply user overrides and the 320x240 fallback, store the result into
`vo->dwidth` / `vo->dheight`, the cell counts, and `canvas_ok`. -/
def update_canvas_dimensions (s : State) (q : TermSize) : State :=
  let total_px_width :=
    if s.opt_width > 0 then s.opt_width
    else if q.px_width ≤ 0 then TERMINAL_FALLBACK_PX_WIDTH
    else q.px_width
  let total_px_height :=
    if s.opt_height > 0 then s.opt_height
    else if q.px_height ≤ 0 then TERMINAL_FALLBACK_PX_HEIGHT
    else q.px_height
  { s with
    dheight := total_px_height
    dwidth := total_px_width
    num_rows := q.rows
    num_cols := q.cols
    canvas_ok := decide (total_px_width > 0 ∧ total_px_height > 0) }

/-- `set_output_parameters` (lines 125-138). `vo_get_src_dst_rects` is the
out-of-scope rectangle-fitting collaborator; its result `(src, dst)` is an
input. The cell origin uses C integer division by the canvas pixel size. -/
def set_output_parameters (s : State) (rects : Rect × Rect) : State :=
  let src := rects.1
  let dst := rects.2
  { s with
    src_rect := src
    dst_rect := dst
    width := dst.x1 - dst.x0
    height := dst.y1 - dst.y0
    top := if s.opt_top > 0 then s.opt_top
           else cdiv (s.num_rows * dst.y0) s.dheight + 1
    left := if s.opt_left > 0 then s.opt_left
            else cdiv (s.num_cols * dst.x0) s.dwidth + 1 }

/-- `dealloc_buffers` (lines 72-90): munmap the buffer if non-null, close the
descriptor if not -1, free the output frame; resets all three fields. -/
def dealloc_buffers (s : State) : State × List Op :=
  let (s1, ops1) :=
    match s.buffer with
    | BufPtr.null => (s, ([] : List Op))
    | _ => ({ s with buffer := BufPtr.null },
            [Op.os_munmap (s.width * s.height * depth)])
  let (s2, ops2) :=
    if s1.mmap_fd ≠ -1 then
      ({ s1 with mmap_fd := -1 }, ops1 ++ [Op.os_close s1.mmap_fd])
    else (s1, ops1)
  ({ s2 with frame := none }, ops2)

/-- Oracle for the out-of-scope allocation and scaler collaborators used by
`update_params`: whether `mp_image_alloc` succeeds and, when it does, the
stride and initial plane contents it chooses; whether `mp_sws_reinit`
succeeds. -/
structure AllocEnv where
  alloc_ok : Bool
  alloc_stride : Nat
  alloc_plane : Nat → Nat
  sws_ok : Bool

/-- `update_params` (lines 140-164): reconfigure the scaler descriptors
(external state, not modelled beyond the reinit result), release the old
buffers, allocate a fresh RGBA frame of `priv->width × priv->height`, then
reinit the scaler. Returns the new state, the trace and the C return value
(0 success, -1 failure). -/
def update_params (s : State) (aenv : AllocEnv) : State × List Op × Int :=
  let (s1, ops) := dealloc_buffers s
  if aenv.alloc_ok then
    let s2 := { s1 with
      frame := some ⟨s1.width, s1.height, aenv.alloc_stride, aenv.alloc_plane⟩ }
    if aenv.sws_ok then (s2, ops, 0) else (s2, ops, -1)
  else (s1, ops, -1)

/-- The body `reconfig` runs when `priv->canvas_ok` holds (lines 172-175):
compute the layout, then `update_params`; its return value is `reconfig`'s. -/
def reconfig_valid (s1 : State) (rects : Rect × Rect) (aenv : AllocEnv) :
    State × List Op × Int :=
  let sa := set_output_parameters s1 rects
  let u := update_params sa aenv
  (u.1, u.2.1 ++ [Op.clear_screen], u.2.2)

/-- `reconfig` (lines 166-180): refresh canvas dimensions; if the canvas is
valid, set output parameters and update params; always clear the screen and
request a redraw (the redraw request lives in host state, not modelled). -/
def reconfig (s : State) (q : TermSize) (rects : Rect × Rect)
    (aenv : AllocEnv) : State × List Op × Int :=
  let s1 := update_canvas_dimensions s q
  if s1.canvas_ok then reconfig_valid s1 rects aenv
  else (s1, [Op.clear_screen], 0)

/-- The fields of `struct vo_frame` this driver reads: the repeat flag, the
redraw flag and the (possibly absent) current picture. -/
structure FrameIn where
  repeat' : Bool
  redraw : Bool
  current : Option Raster

/-- Oracle inputs for one `draw_frame` call: the rectangle-fitting result (for
a possible resize reconfiguration), the allocation oracle, the results of the
three shared-memory system calls (`shm_open` returns -1 on failure), and the
plane contents the out-of-scope scale/clear + OSD collaborators leave in the
output frame. -/
structure DrawEnv where
  rects : Rect × Rect
  alloc : AllocEnv
  shm_fd : Int
  ftruncate_ok : Bool
  mmap_ok : Bool
  composed_plane : Nat → Nat

/-- Modelled from the spec: `memcpy_pic` is declared by mpv headers that are
not among the provided sources. Per the spec's copy step it copies, for each
of `h` rows, `bpl` bytes from source offset `y * sstride` to destination
offset `y * dstride`. `copy_row` is one row of that copy. -/
def copy_row (dst src : Nat → Nat) (bpl dOff sOff : Nat) : Nat → Nat :=
  fun a => if dOff ≤ a ∧ a < dOff + bpl then src (sOff + (a - dOff)) else dst a

/-- Modelled from the spec: row-by-row pixel copy (`memcpy_pic`), recursing on
the number of rows. -/
def memcpy_pic (dst src : Nat → Nat) (bpl : Nat) :
    Nat → Nat → Nat → Nat → Nat
  | 0, _, _ => dst
  | h + 1, dstride, sstride =>
    copy_row (memcpy_pic dst src bpl h dstride sstride) src bpl
      (h * dstride) (h * sstride)

/-- The compositing step of `draw_frame` (lines 214-233): scale the current
picture into `priv->frame` (or clear it when absent), then draw the OSD on it
unconditionally. Scaling, clearing and the OSD are out-of-scope collaborators
mutating the frame's plane; the plane contents they leave behind are the
oracle's `composed_plane`. -/
def draw_compose (s : State) (f : FrameIn) (env : DrawEnv) : State × List Op :=
  let s' := { s with
    frame := s.frame.map fun r => { r with plane0 := env.composed_plane } }
  match f.current with
  | some _ => (s', [Op.sws_scale, Op.osd_draw])
  | none => (s', [Op.image_clear, Op.osd_draw])

/-- "Failed to create SHM object". -/
def shm_open_warning : String := "Failed to create SHM object"

/-- "Failed to truncate SHM object". -/
def ftruncate_warning : String := "Failed to truncate SHM object"

/-- "Failed to mmap SHM object". -/
def mmap_warning : String := "Failed to mmap SHM object"

/-- The publish step of `draw_frame` (lines 236-261): `shm_open`, `ftruncate`
to `width*height*depth`, `mmap`, then `memcpy_pic` the frame's rows into the
region at destination stride `width*depth`. Each failure warns, releases the
partially acquired OS resources and returns. The C code dereferences
`priv->frame` unconditionally at the copy; when the state has no frame the
model copies from a zero plane (no claim reaches that case). -/
def publish (s : State) (env : DrawEnv) : State × List Op :=
  let s1 := { s with mmap_fd := env.shm_fd }
  if env.shm_fd = -1 then
    (s1, [Op.os_shm_open_fail, Op.warn shm_open_warning])
  else
    let size := s1.width * s1.height * depth
    if ¬ env.ftruncate_ok then
      (s1, [Op.os_shm_open_ok env.shm_fd,
            Op.os_ftruncate env.shm_fd size false,
            Op.warn ftruncate_warning,
            Op.os_shm_unlink, Op.os_close env.shm_fd])
    else if ¬ env.mmap_ok then
      ({ s1 with buffer := BufPtr.mapFailed },
       [Op.os_shm_open_ok env.shm_fd,
        Op.os_ftruncate env.shm_fd size true,
        Op.os_mmap_fail size,
        Op.warn mmap_warning,
        Op.os_shm_unlink, Op.os_close env.shm_fd])
    else
      let srcPlane := match s1.frame with
        | some r => r.plane0
        | none => fun _ => 0
      let srcStride := match s1.frame with
        | some r => r.stride0
        | none => 0
      let bpl := s1.width.toNat * depth.toNat
      let data := memcpy_pic (fun _ => 0) srcPlane bpl s1.height.toNat bpl
        srcStride
      ({ s1 with buffer := BufPtr.mapped data },
       [Op.os_shm_open_ok env.shm_fd,
        Op.os_ftruncate env.shm_fd size true,
        Op.os_mmap_ok size])

/-- The part of `draw_frame` after the `canvas_ok` guard (lines 195-264),
with `prev_width`/`prev_height` the values of `vo->dwidth`/`vo->dheight`
captured before `update_canvas_dimensions` ran. -/
def draw_frame_go (s1 : State) (prev_width prev_height : Int) (f : FrameIn)
    (env : DrawEnv) : State × List Op :=
  let resized := decide (prev_width ≠ s1.dwidth ∨ prev_height ≠ s1.dheight)
  let step :=
    if resized then
      let sa := set_output_parameters s1 env.rects
      let u := update_params sa env.alloc
      -- Line 199: the return value of update_params is not checked here.
      (u.1, u.2.1 ++ [Op.clear_screen])
    else (s1, ([] : List Op))
  let s2 := step.1
  let ops2 := step.2
  if f.repeat' && !f.redraw && !resized then
    ({ s2 with skip_frame_draw := true }, ops2)
  else
    let s3 := { s2 with skip_frame_draw := false }
    let c := draw_compose s3 f env
    let p := publish c.1 env
    (p.1, ops2 ++ c.2 ++ p.2)

/-- `draw_frame` (lines 183-265): refresh canvas dimensions, bail out on an
invalid canvas, reconfigure on resize, decide skip, composite, publish. -/
def draw_frame (s : State) (q : TermSize) (f : FrameIn) (env : DrawEnv) :
    State × List Op :=
  let prev_height := s.dheight
  let prev_width := s.dwidth
  let s1 := update_canvas_dimensions s q
  if ¬ s1.canvas_ok then (s1, [])
  else draw_frame_go s1 prev_width prev_height f env

/-- `flip_page` (lines 267-285): no-op when the canvas is invalid or the
frame was marked skippable; otherwise write the cursor-positioning sequence,
the kitty graphics command, flush, then munmap and close (the name is left
for the terminal to unlink). -/
def flip_page (s : State) : State × List Op :=
  if ¬ s.canvas_ok then (s, [])
  else if s.skip_frame_draw then (s, [])
  else
    ({ s with buffer := BufPtr.null, mmap_fd := -1 },
     [Op.gotoxy s.top s.left,
      Op.gfx_cmd s.width s.height SHM_NAME_BASE64,
      Op.flush,
      Op.os_munmap (s.width * s.height * depth),
      Op.os_close s.mmap_fd])

/-- `preinit` (lines 287-298): hide the cursor, initialize `mmap_fd` to -1
(the scaler-context allocation is external state, not modelled). -/
def preinit (s : State) : State × List Op :=
  ({ s with mmap_fd := -1 }, [Op.hide_cursor])

/-- Modelled from the spec: the host status codes of mpv's `vo.h` (not among
the provided sources). They are distinct: `VO_TRUE` reports success. -/
def VO_TRUE : Int := 1

/-- Modelled from the spec: `VO_FALSE` reports a handled request that
failed. -/
def VO_FALSE : Int := 0

/-- Modelled from the spec: `VO_NOTIMPL` reports a request the driver does
not handle. -/
def VO_NOTIMPL : Int := -3

/-- The control requests this driver distinguishes. -/
inductive Request where
  | SET_PANSCAN
  | other
deriving DecidableEq

/-- `control` (lines 310-315). For `VOCTRL_SET_PANSCAN` the C returns
`(vo->config_ok && !reconfig(vo, vo->params)) ? VO_TRUE : VO_FALSE`: the `&&`
short-circuits, so `reconfig` runs only when `config_ok` holds. Every other
request returns `VO_NOTIMPL`. -/
def control (s : State) (req : Request) (q : TermSize) (rects : Rect × Rect)
    (aenv : AllocEnv) : State × List Op × Int :=
  match req with
  | Request.SET_PANSCAN =>
    if s.config_ok then
      let r := reconfig s q rects aenv
      (r.1, r.2.1, if r.2.2 = 0 then VO_TRUE else VO_FALSE)
    else (s, [], VO_FALSE)
  | Request.other => (s, [], VO_NOTIMPL)

/-- `uninit` (lines 317-330): restore the cursor, optionally clear the screen
and home the cursor, flush, release the buffers. -/
def uninit (s : State) : State × List Op :=
  let ops0 := [Op.restore_cursor] ++
    (if s.opt_clear then [Op.clear_screen, Op.gotoxy 1 1] else []) ++
    [Op.flush]
  let d := dealloc_buffers s
  (d.1, ops0 ++ d.2)

/-- The base64 alphabet. -/
def base64_chars : List Char :=
  "ABCDEFGHIJKLMNOPQRSTUVWXYZabcdefghijklmnopqrstuvwxyz0123456789+/".toList

/-- The base64 digit for a 6-bit value. -/
def b64digit (n : Nat) : Char := base64_chars.getD n (Char.ofNat 61)

/-- Base64 encoding of a byte list (standard RFC 4648 with padding). -/
def base64_encode : List Nat → List Char
  | [] => []
  | [a] =>
    [b64digit (a / 4), b64digit (a % 4 * 16), Char.ofNat 61, Char.ofNat 61]
  | [a, b] =>
    [b64digit (a / 4), b64digit (a % 4 * 16 + b / 16),
     b64digit (b % 16 * 4), Char.ofNat 61]
  | a :: b :: c :: rest =>
    [b64digit (a / 4), b64digit (a % 4 * 16 + b / 16),
     b64digit (b % 16 * 4 + c / 64), b64digit (c % 64)] ++ base64_encode rest

/-! ### Concrete fixtures for witnesses -/

/-- The driver state after option parsing with the shipped defaults
(`priv_defaults`, lines 345-351) and `preinit` (which sets `mmap_fd := -1`):
all options 0 except `exit-clear`, everything else zeroed. -/
def init_state : State :=
  { opt_width := 0, opt_height := 0, opt_top := 0, opt_left := 0,
    opt_clear := true, fmt := 0, mmap_fd := -1, buffer := BufPtr.null,
    skip_frame_draw := false, left := 0, top := 0, width := 0, height := 0,
    num_cols := 0, num_rows := 0, canvas_ok := false,
    src_rect := ⟨0, 0, 0, 0⟩, dst_rect := ⟨0, 0, 0, 0⟩, frame := none,
    dwidth := 0, dheight := 0, config_ok := false }

/-- A terminal report: 40 rows, 120 columns, 960x600 pixels. -/
def q0 : TermSize := ⟨40, 120, 960, 600⟩

/-- A rectangle-fitting result: 1920x1080 source, letterboxed 960x540
destination at vertical offset 30. -/
def rects0 : Rect × Rect := (⟨0, 0, 1920, 1080⟩, ⟨0, 30, 960, 570⟩)

/-- A successful allocation oracle with stride 3840 and zeroed plane. -/
def aenv0 : AllocEnv := ⟨true, 3840, fun _ => 0, true⟩

/-! ### Helper lemmas: the per-frame pipeline does not touch fields it does
not assign -/

theorem dealloc_buffers_skip (s : State) :
    (dealloc_buffers s).1.skip_frame_draw = s.skip_frame_draw := by
  unfold dealloc_buffers
  cases s.buffer <;> dsimp only <;> split_ifs <;> rfl

theorem dealloc_buffers_canvas (s : State) :
    (dealloc_buffers s).1.canvas_ok = s.canvas_ok := by
  unfold dealloc_buffers
  cases s.buffer <;> dsimp only <;> split_ifs <;> rfl

theorem dealloc_buffers_size (s : State) :
    (dealloc_buffers s).1.width = s.width ∧
      (dealloc_buffers s).1.height = s.height := by
  unfold dealloc_buffers
  cases s.buffer <;> dsimp only <;> split_ifs <;> exact ⟨rfl, rfl⟩

theorem update_params_skip (s : State) (aenv : AllocEnv) :
    (update_params s aenv).1.skip_frame_draw = s.skip_frame_draw := by
  unfold update_params
  split_ifs <;> simpa using dealloc_buffers_skip s

theorem update_params_canvas (s : State) (aenv : AllocEnv) :
    (update_params s aenv).1.canvas_ok = s.canvas_ok := by
  unfold update_params
  split_ifs <;> simpa using dealloc_buffers_canvas s

theorem update_params_size (s : State) (aenv : AllocEnv) :
    (update_params s aenv).1.width = s.width ∧
      (update_params s aenv).1.height = s.height := by
  unfold update_params
  split_ifs <;> simpa using dealloc_buffers_size s

theorem publish_skip (s : State) (env : DrawEnv) :
    (publish s env).1.skip_frame_draw = s.skip_frame_draw := by
  unfold publish
  split_ifs <;> rfl

theorem publish_canvas (s : State) (env : DrawEnv) :
    (publish s env).1.canvas_ok = s.canvas_ok := by
  unfold publish
  split_ifs <;> rfl

theorem draw_compose_skip (s : State) (f : FrameIn) (env : DrawEnv) :
    (draw_compose s f env).1.skip_frame_draw = s.skip_frame_draw := by
  unfold draw_compose
  cases f.current <;> rfl

theorem draw_compose_canvas (s : State) (f : FrameIn) (env : DrawEnv) :
    (draw_compose s f env).1.canvas_ok = s.canvas_ok := by
  unfold draw_compose
  cases f.current <;> rfl

theorem draw_frame_go_canvas (s1 : State) (pw ph : Int) (f : FrameIn)
    (env : DrawEnv) :
    (draw_frame_go s1 pw ph f env).1.canvas_ok = s1.canvas_ok := by
  unfold draw_frame_go
  dsimp only
  split_ifs <;>
    simp [publish_canvas, draw_compose_canvas, update_params_canvas,
      set_output_parameters]

/-! ### Claim C5 -/

/-- C5: in the canvas-geometry resolution, a positive user width/height
override replaces the queried pixel dimension unconditionally; with no
positive override, a non-positive queried dimension is replaced by the fixed
fallback 320x240 on that axis, and a positive queried dimension is used
as-is. -/
theorem canvas_resolution_cases (s : State) (q : TermSize) :
    (0 < s.opt_width → (update_canvas_dimensions s q).dwidth = s.opt_width) ∧
    (s.opt_width ≤ 0 → q.px_width ≤ 0 →
      (update_canvas_dimensions s q).dwidth = 320) ∧
    (s.opt_width ≤ 0 → 0 < q.px_width →
      (update_canvas_dimensions s q).dwidth = q.px_width) ∧
    (0 < s.opt_height →
      (update_canvas_dimensions s q).dheight = s.opt_height) ∧
    (s.opt_height ≤ 0 → q.px_height ≤ 0 →
      (update_canvas_dimensions s q).dheight = 240) ∧
    (s.opt_height ≤ 0 → 0 < q.px_height →
      (update_canvas_dimensions s q).dheight = q.px_height) := by
  unfold update_canvas_dimensions TERMINAL_FALLBACK_PX_WIDTH
    TERMINAL_FALLBACK_PX_HEIGHT
  refine ⟨?_, ?_, ?_, ?_, ?_, ?_⟩ <;> intros <;> split_ifs <;>
    first | rfl | omega

/-- C5 witness: an override of 777 wins even though the query reports 960;
with no override and a failed query (0x0), the 320x240 fallback is used. -/
theorem canvas_resolution_cases_witness :
    (update_canvas_dimensions { init_state with opt_width := 777 }
      q0).dwidth = 777 ∧
    (update_canvas_dimensions init_state ⟨40, 120, 0, 0⟩).dwidth = 320 ∧
    (update_canvas_dimensions init_state ⟨40, 120, 0, 0⟩).dheight = 240 :=
  ⟨(canvas_resolution_cases { init_state with opt_width := 777 } q0).1
      (by decide),
   (canvas_resolution_cases init_state ⟨40, 120, 0, 0⟩).2.1
      (by decide) (by decide),
   (canvas_resolution_cases init_state ⟨40, 120, 0, 0⟩).2.2.2.2.1
      (by decide) (by decide)⟩

theorem update_canvas_dimensions_ok (s : State) (q : TermSize) :
    (update_canvas_dimensions s q).canvas_ok =
      decide (0 < (update_canvas_dimensions s q).dwidth ∧
        0 < (update_canvas_dimensions s q).dheight) := rfl

/-! ### Claim C10 -/

/-- C10: whatever the terminal query reports (including non-positive values)
and whatever the options are, the resolver leaves strictly positive canvas
pixel dimensions and `canvas_ok = true`; consequently `reconfig` always takes
its valid-canvas branch, `draw_frame` never takes its invalid-canvas early
return, and the state any draw leaves behind has `canvas_ok = true` (so
`flip_page`'s invalid-canvas guard cannot fire after a draw either). -/
theorem canvas_always_ok (s : State) (q : TermSize) :
    0 < (update_canvas_dimensions s q).dwidth ∧
    0 < (update_canvas_dimensions s q).dheight ∧
    (update_canvas_dimensions s q).canvas_ok = true ∧
    (∀ rects aenv, reconfig s q rects aenv =
      reconfig_valid (update_canvas_dimensions s q) rects aenv) ∧
    (∀ f env, draw_frame s q f env =
      draw_frame_go (update_canvas_dimensions s q) s.dwidth s.dheight
        f env) ∧
    (∀ f env, (draw_frame s q f env).1.canvas_ok = true) := by
  have hw : 0 < (update_canvas_dimensions s q).dwidth := by
    unfold update_canvas_dimensions TERMINAL_FALLBACK_PX_WIDTH
    split_ifs <;> simp <;> omega
  have hh : 0 < (update_canvas_dimensions s q).dheight := by
    unfold update_canvas_dimensions TERMINAL_FALLBACK_PX_HEIGHT
    split_ifs <;> simp <;> omega
  have hok : (update_canvas_dimensions s q).canvas_ok = true := by
    rw [update_canvas_dimensions_ok]
    simp only [decide_eq_true_eq]
    exact ⟨hw, hh⟩
  have hdraw : ∀ f env, draw_frame s q f env =
      draw_frame_go (update_canvas_dimensions s q) s.dwidth s.dheight
        f env := by
    intro f env
    unfold draw_frame
    simp [hok]
  refine ⟨hw, hh, hok, ?_, hdraw, ?_⟩
  · intro rects aenv
    unfold reconfig
    simp [hok]
  · intro f env
    rw [hdraw f env, draw_frame_go_canvas]
    exact hok

/-! ### Claim C4 -/

/-- C4: with positive canvas pixel dimensions (and the non-negative cell
counts and destination offsets every real layout has), the image origin cell
is `top = user_top` when `user_top > 0` and otherwise
`⌊rows * dst.y0 / canvas_px_height⌋ + 1`, and `left = user_left` when
`user_left > 0` and otherwise `⌊cols * dst.x0 / canvas_px_width⌋ + 1`; the
divisions are by the canvas pixel dimensions and the results 1-based.
`Int.fdiv` is floor division, which agrees with the C truncating division
here because both operands are non-negative. -/
theorem layout_cell_origin (s : State) (rects : Rect × Rect)
    (hh : 0 < s.dheight) (hw : 0 < s.dwidth)
    (hr : 0 ≤ s.num_rows) (hc : 0 ≤ s.num_cols)
    (hy : 0 ≤ rects.2.y0) (hx : 0 ≤ rects.2.x0) :
    (set_output_parameters s rects).top =
      (if 0 < s.opt_top then s.opt_top
       else Int.fdiv (s.num_rows * rects.2.y0) s.dheight + 1) ∧
    (set_output_parameters s rects).left =
      (if 0 < s.opt_left then s.opt_left
       else Int.fdiv (s.num_cols * rects.2.x0) s.dwidth + 1) := by
  have ht : Int.fdiv (s.num_rows * rects.2.y0) s.dheight =
      cdiv (s.num_rows * rects.2.y0) s.dheight :=
    Int.fdiv_eq_tdiv (mul_nonneg hr hy) (le_of_lt hh)
  have hl : Int.fdiv (s.num_cols * rects.2.x0) s.dwidth =
      cdiv (s.num_cols * rects.2.x0) s.dwidth :=
    Int.fdiv_eq_tdiv (mul_nonneg hc hx) (le_of_lt hw)
  rw [ht, hl]
  unfold set_output_parameters
  exact ⟨rfl, rfl⟩

/-- A state with canvas 960x600 and 40x120 cells, no user overrides. -/
def layout_fixture : State :=
  { init_state with
    num_rows := 40
    num_cols := 120
    dwidth := 960
    dheight := 600 }

/-- C4 witness: canvas 960x600, 40x120 cells, destination rectangle starting
at pixel (0, 30), no user overrides: the origin cell is row
`40 * 30 / 600 + 1 = 3`, column `120 * 0 / 960 + 1 = 1`. -/
theorem layout_cell_origin_witness :
    (set_output_parameters layout_fixture rects0).top = 3 ∧
    (set_output_parameters layout_fixture rects0).left = 1 := by
  have h := layout_cell_origin layout_fixture rects0
    (by decide) (by decide) (by decide) (by decide) (by decide) (by decide)
  rw [h.1, h.2]
  decide

/-! ### Claim C3 -/

/-- On an unchanged canvas, a repeated frame needing no redraw takes the skip
branch: the flag is set and nothing else happens. -/
theorem draw_frame_go_skip_case (s1 : State) (pw ph : Int) (f : FrameIn)
    (env : DrawEnv) (hw : pw = s1.dwidth) (hh : ph = s1.dheight)
    (hrep : f.repeat' = true) (hred : f.redraw = false) :
    draw_frame_go s1 pw ph f env =
      ({ s1 with skip_frame_draw := true }, []) := by
  subst hw hh
  unfold draw_frame_go
  simp [hrep, hred]

/-- When the frame is not a repeat, needs a redraw, or the canvas just
resized, the skip branch is not taken: the flag ends false and the OSD (and
with it the whole compositing step) runs. -/
theorem draw_frame_go_nonskip (s1 : State) (pw ph : Int) (f : FrameIn)
    (env : DrawEnv)
    (hcond : f.repeat' = false ∨ f.redraw = true ∨ pw ≠ s1.dwidth ∨
      ph ≠ s1.dheight) :
    (draw_frame_go s1 pw ph f env).1.skip_frame_draw = false ∧
      Op.osd_draw ∈ (draw_frame_go s1 pw ph f env).2 := by
  unfold draw_frame_go
  dsimp only
  have hbool : (f.repeat' && !f.redraw &&
      !decide (pw ≠ s1.dwidth ∨ ph ≠ s1.dheight)) = false := by
    rcases hcond with h | h | h | h <;> simp [h]
  rw [hbool]
  simp only [if_neg Bool.false_ne_true]
  constructor
  · rw [publish_skip, draw_compose_skip]
  · refine List.mem_append.2 (Or.inl (List.mem_append.2 (Or.inr ?_)))
    unfold draw_compose
    cases f.current <;> simp

/-- C3: for a draw call with a valid canvas, the frame is marked skippable
with no compositing or transfer work (an empty effect trace) exactly when the
incoming frame is a repeat, needs no overlay redraw, and the canvas pixel
dimensions are unchanged since the previous draw; in particular a canvas
resize forces compositing even for a repeated frame. -/
theorem draw_skip_iff (s : State) (q : TermSize) (f : FrameIn) (env : DrawEnv)
    (h : (update_canvas_dimensions s q).canvas_ok = true) :
    (((draw_frame s q f env).1.skip_frame_draw = true ∧
        (draw_frame s q f env).2 = []) ↔
      (f.repeat' = true ∧ f.redraw = false ∧
        s.dwidth = (update_canvas_dimensions s q).dwidth ∧
        s.dheight = (update_canvas_dimensions s q).dheight)) ∧
    ((s.dwidth ≠ (update_canvas_dimensions s q).dwidth ∨
        s.dheight ≠ (update_canvas_dimensions s q).dheight) →
      (draw_frame s q f env).1.skip_frame_draw = false ∧
        Op.osd_draw ∈ (draw_frame s q f env).2) := by
  have hd : draw_frame s q f env =
      draw_frame_go (update_canvas_dimensions s q) s.dwidth s.dheight
        f env := by
    unfold draw_frame
    simp [h]
  rw [hd]
  cases hrep : f.repeat' <;> cases hred : f.redraw <;>
    by_cases hdw : s.dwidth = (update_canvas_dimensions s q).dwidth <;>
    by_cases hdh : s.dheight = (update_canvas_dimensions s q).dheight <;>
    first
      | (rw [draw_frame_go_skip_case (update_canvas_dimensions s q)
            s.dwidth s.dheight f env hdw hdh hrep hred]
         simp [hrep, hred, hdw, hdh])
      | (have hns := draw_frame_go_nonskip (update_canvas_dimensions s q)
            s.dwidth s.dheight f env (by tauto)
         refine ⟨⟨fun hl => ?_, fun hr => ?_⟩, fun _ => hns⟩
         · rw [hns.1] at hl
           exact (Bool.false_ne_true hl.1).elim
         · exact absurd hr (by simp [hrep, hred, hdw, hdh]))

/-- A draw environment for the C3 witness (all oracles succeed). -/
def skip_env : DrawEnv :=
  { rects := rects0
    alloc := aenv0
    shm_fd := 5
    ftruncate_ok := true
    mmap_ok := true
    composed_plane := fun _ => 0 }

/-- C3 witness: starting from a state whose canvas already is 960x600 (so the
fixed query changes nothing), a repeated frame with no redraw is skipped with
an empty trace. -/
theorem draw_skip_iff_witness :
    (draw_frame { layout_fixture with canvas_ok := true } q0
        ⟨true, false, none⟩ skip_env).1.skip_frame_draw = true ∧
      (draw_frame { layout_fixture with canvas_ok := true } q0
        ⟨true, false, none⟩ skip_env).2 = [] :=
  (draw_skip_iff { layout_fixture with canvas_ok := true } q0
      ⟨true, false, none⟩ skip_env (by decide)).1.2
    ⟨rfl, rfl, by decide, by decide⟩

/-! ### Claim C6 -/

/-- When the allocation succeeds, `update_params` installs a frame of exactly
the state's current output dimensions. -/
theorem update_params_frame (s : State) (aenv : AllocEnv)
    (h : aenv.alloc_ok = true) :
    (update_params s aenv).1.frame =
      some ⟨s.width, s.height, aenv.alloc_stride, aenv.alloc_plane⟩ := by
  unfold update_params
  dsimp only
  simp only [h, if_true]
  split_ifs <;>
    simp [(dealloc_buffers_size s).1, (dealloc_buffers_size s).2]

/-- Whenever the publish step reaches `ftruncate` and it succeeds, the region
is sized to exactly `width * height * 4` bytes of the publishing state. -/
theorem publish_ftruncate_size (s : State) (env : DrawEnv)
    (hfd : env.shm_fd ≠ -1) (hft : env.ftruncate_ok = true) :
    Op.os_ftruncate env.shm_fd (s.width * s.height * 4) true ∈
      (publish s env).2 := by
  unfold publish
  rw [if_neg hfd]
  dsimp only
  rw [if_neg (by simp [hft])]
  split_ifs <;> simp [depth]

/-- C6: the layout stores `width = dst.x1 - dst.x0` and
`height = dst.y1 - dst.y0`; the composited output frame is then allocated
with exactly those dimensions, and the shared-memory transfer object for that
layout is sized to exactly `width * height * 4` bytes. -/
theorem frame_and_buffer_sizes (s : State) (rects : Rect × Rect)
    (aenv : AllocEnv) (env : DrawEnv)
    (halloc : aenv.alloc_ok = true)
    (hfd : env.shm_fd ≠ -1) (hft : env.ftruncate_ok = true) :
    (set_output_parameters s rects).width = rects.2.x1 - rects.2.x0 ∧
    (set_output_parameters s rects).height = rects.2.y1 - rects.2.y0 ∧
    (update_params (set_output_parameters s rects) aenv).1.frame =
      some ⟨rects.2.x1 - rects.2.x0, rects.2.y1 - rects.2.y0,
        aenv.alloc_stride, aenv.alloc_plane⟩ ∧
    Op.os_ftruncate env.shm_fd
        ((rects.2.x1 - rects.2.x0) * (rects.2.y1 - rects.2.y0) * 4) true ∈
      (publish (update_params (set_output_parameters s rects) aenv).1
        env).2 := by
  refine ⟨rfl, rfl, update_params_frame _ aenv halloc, ?_⟩
  have h := publish_ftruncate_size
    (update_params (set_output_parameters s rects) aenv).1 env hfd hft
  rwa [(update_params_size _ aenv).1, (update_params_size _ aenv).2] at h

/-- C6 witness: with the 960x540 destination rectangle, the frame is
allocated at 960x540 and the region sized to 960*540*4 bytes. -/
theorem frame_and_buffer_sizes_witness :
    (update_params (set_output_parameters init_state rects0) aenv0).1.frame =
      some ⟨960, 540, aenv0.alloc_stride, aenv0.alloc_plane⟩ ∧
    Op.os_ftruncate 5 (960 * 540 * 4) true ∈
      (publish (update_params (set_output_parameters init_state rects0)
        aenv0).1 skip_env).2 := by
  have h := frame_and_buffer_sizes init_state rects0 aenv0 skip_env rfl
    (by decide) rfl
  exact ⟨h.2.2.1, h.2.2.2⟩

/-! ### Claim C7 -/

/-- Reading back after `memcpy_pic`: provided rows cannot overlap
(`bpl ≤ dstride`), byte `i` of destination row `y` equals byte `i` of source
row `y`, the source row starting at its own stride. -/
theorem memcpy_pic_read (dst src : Nat → Nat) (bpl dstride sstride : Nat)
    (hbd : bpl ≤ dstride) :
    ∀ h y i, y < h → i < bpl →
      memcpy_pic dst src bpl h dstride sstride (y * dstride + i) =
        src (y * sstride + i) := by
  intro h
  induction h with
  | zero => exact fun y i hy _ => absurd hy (Nat.not_lt_zero y)
  | succ n ih =>
    intro y i hy hi
    show copy_row (memcpy_pic dst src bpl n dstride sstride) src bpl
      (n * dstride) (n * sstride) (y * dstride + i) = src (y * sstride + i)
    by_cases hyn : y = n
    · subst hyn
      unfold copy_row
      rw [if_pos ⟨Nat.le_add_right _ _, Nat.add_lt_add_left hi _⟩,
        Nat.add_sub_cancel_left]
    · have hlt : y < n := Nat.lt_of_le_of_ne (Nat.lt_succ_iff.mp hy) hyn
      unfold copy_row
      rw [if_neg]
      · exact ih y i hlt hi
      · rintro ⟨hle, -⟩
        have h1 : y * dstride + i < (y + 1) * dstride := by
          have hid : i < dstride := lt_of_lt_of_le hi hbd
          calc y * dstride + i < y * dstride + dstride := by omega
            _ = (y + 1) * dstride := by ring
        have h2 : (y + 1) * dstride ≤ n * dstride :=
          mul_le_mul_right' hlt dstride
        omega

/-- On the fully successful publish path, the mapped region holds exactly the
`memcpy_pic` copy of the frame's plane. -/
theorem publish_success_buffer (s : State) (env : DrawEnv) (r : Raster)
    (hf : s.frame = some r) (hfd : env.shm_fd ≠ -1)
    (hft : env.ftruncate_ok = true) (hmm : env.mmap_ok = true) :
    (publish s env).1.buffer =
      BufPtr.mapped (memcpy_pic (fun _ => 0) r.plane0
        (s.width.toNat * 4) s.height.toNat (s.width.toNat * 4) r.stride0) := by
  unfold publish
  rw [if_neg hfd]
  dsimp only
  rw [if_neg (by simp [hft]), if_neg (by simp [hmm])]
  dsimp only
  rw [hf]
  simp [depth]

/-- C7: for every successfully published raster (shm create, size and map all
succeeded), reading any byte of the mapped region before handoff yields the
raster's pixel bytes: the destination is laid out at stride `width*4` while
the source row is read at the raster's own (possibly larger) stride. -/
theorem publish_roundtrip (s : State) (env : DrawEnv) (r : Raster)
    (hf : s.frame = some r) (hfd : env.shm_fd ≠ -1)
    (hft : env.ftruncate_ok = true) (hmm : env.mmap_ok = true) :
    ∃ d, (publish s env).1.buffer = BufPtr.mapped d ∧
      ∀ y i, y < s.height.toNat → i < s.width.toNat * 4 →
        d (y * (s.width.toNat * 4) + i) = r.plane0 (y * r.stride0 + i) := by
  refine ⟨_, publish_success_buffer s env r hf hfd hft hmm, ?_⟩
  intro y i hy hi
  exact memcpy_pic_read (fun _ => 0) r.plane0 (s.width.toNat * 4)
    (s.width.toNat * 4) r.stride0 (le_refl _) s.height.toNat y i hy hi

/-- A 2x2 raster with stride 12 (larger than the packed 8 bytes per row). -/
def r0 : Raster := ⟨2, 2, 12, fun a => a % 251⟩

/-- A state about to publish `r0` at 2x2. -/
def round_state : State :=
  { init_state with
    width := 2
    height := 2
    frame := some r0 }

/-- C7 witness: publishing the concrete 2x2 raster `r0` (stride 12) maps a
buffer whose bytes agree with `r0`'s rows. -/
theorem publish_roundtrip_witness :
    ∃ d, (publish round_state skip_env).1.buffer = BufPtr.mapped d ∧
      ∀ y i, y < round_state.height.toNat →
        i < round_state.width.toNat * 4 →
        d (y * (round_state.width.toNat * 4) + i) =
          r0.plane0 (y * r0.stride0 + i) :=
  publish_roundtrip round_state skip_env r0 rfl (by decide) rfl rfl

/-! ### Claim C8 -/

/-- C8: a present call is a no-op when the canvas is invalid or when the
frame was marked skippable; otherwise it emits exactly the 1-based
cursor-positioning sequence to cell (row=top, col=left), then the kitty
graphics command (the C literal declares a=T transmit, f=32 32-bit RGBA,
t=s shared-memory medium, s=width, v=height and the base64 object name),
flushes the stream immediately, and then unmaps and closes the region in
this process with no `shm_unlink` — deletion of the named object is left to
the terminal. The hardcoded name constant is the base64 encoding of the
shared-memory object name without its leading slash. -/
theorem flip_page_spec (s : State) :
    (s.canvas_ok = false → flip_page s = (s, [])) ∧
    (s.skip_frame_draw = true → flip_page s = (s, [])) ∧
    (s.canvas_ok = true → s.skip_frame_draw = false →
      (flip_page s).2 =
        [Op.gotoxy s.top s.left,
         Op.gfx_cmd s.width s.height SHM_NAME_BASE64,
         Op.flush,
         Op.os_munmap (s.width * s.height * 4),
         Op.os_close s.mmap_fd] ∧
      Op.os_shm_unlink ∉ (flip_page s).2 ∧
      (flip_page s).1.buffer = BufPtr.null ∧
      (flip_page s).1.mmap_fd = -1) ∧
    SHM_NAME_BASE64 =
      String.mk (base64_encode ((SHM_NAME.toList.drop 1).map Char.toNat)) := by
  refine ⟨fun h => ?_, fun h => ?_, fun h1 h2 => ?_, by decide⟩
  · unfold flip_page
    simp [h]
  · unfold flip_page
    cases hc : s.canvas_ok <;> simp [h, hc]
  · unfold flip_page
    simp [h1, h2, depth]

/-- A state mid-frame: valid canvas, frame published, not skippable. -/
def flip_fixture : State :=
  { layout_fixture with
    canvas_ok := true
    top := 3
    left := 1
    width := 960
    height := 540
    mmap_fd := 5
    buffer := BufPtr.mapped fun _ => 0 }

/-- C8 witness: on the concrete published state, `flip_page` emits exactly
goto(3,1), the graphics command for 960x540, a flush, then munmap and
close(5), and resets the buffer bookkeeping. -/
theorem flip_page_spec_witness :
    (flip_page flip_fixture).2 =
      [Op.gotoxy 3 1,
       Op.gfx_cmd 960 540 SHM_NAME_BASE64,
       Op.flush,
       Op.os_munmap (960 * 540 * 4),
       Op.os_close 5] ∧
    (flip_page flip_fixture).1.mmap_fd = -1 := by
  have h := (flip_page_spec flip_fixture).2.2.1 rfl rfl
  exact ⟨h.1, h.2.2.2⟩

/-! ### Claim C9 -/

/-- C9 counterexample: in a state without a valid configuration, the
set-panscan request is answered with `VO_FALSE` (a handled request that
failed), which is a different status from `VO_NOTIMPL` ("not handled") — the
status this same driver returns for requests it does not implement. -/
theorem control_no_config_counterexample :
    control init_state Request.SET_PANSCAN q0 rects0 aenv0 =
      (init_state, [], VO_FALSE) ∧
    VO_FALSE ≠ VO_NOTIMPL ∧
    (control init_state Request.other q0 rects0 aenv0).2.2 = VO_NOTIMPL :=
  ⟨rfl, by decide, rfl⟩

/-- C9 (amended): for a set-panscan control request, when the driver holds a
valid configuration (`vo->config_ok`), `reconfig` is re-run and its success
or failure is reported to the host as VO_TRUE / VO_FALSE; without a valid
configuration the request is answered VO_FALSE (reported as failed) without
re-running reconfigure — not VO_NOTIMPL ("not handled"), which the driver
reserves for every other request. -/
theorem control_set_panscan (s : State) (q : TermSize) (rects : Rect × Rect)
    (aenv : AllocEnv) :
    (s.config_ok = true →
      control s Request.SET_PANSCAN q rects aenv =
        ((reconfig s q rects aenv).1, (reconfig s q rects aenv).2.1,
          if (reconfig s q rects aenv).2.2 = 0 then VO_TRUE
          else VO_FALSE)) ∧
    (s.config_ok = false →
      control s Request.SET_PANSCAN q rects aenv = (s, [], VO_FALSE)) ∧
    (∀ q2 r2 a2, control s Request.other q2 r2 a2 = (s, [], VO_NOTIMPL)) := by
  unfold control
  refine ⟨fun h => ?_, fun h => ?_, fun q2 r2 a2 => rfl⟩
  · simp [h]
  · simp [h]

/-- C9 witness: with a valid configuration, the set-panscan request re-runs
`reconfig` and reports its result. -/
theorem control_set_panscan_witness :
    control { init_state with config_ok := true } Request.SET_PANSCAN q0
        rects0 aenv0 =
      ((reconfig { init_state with config_ok := true } q0 rects0 aenv0).1,
       (reconfig { init_state with config_ok := true } q0 rects0 aenv0).2.1,
       if (reconfig { init_state with config_ok := true } q0 rects0
           aenv0).2.2 = 0 then VO_TRUE
       else VO_FALSE) :=
  (control_set_panscan { init_state with config_ok := true } q0 rects0
    aenv0).1 rfl

/-! ### Claim C1 -/

/-- A draw environment in which `shm_open` yields descriptor 5 and
`ftruncate` fails. -/
def ftrunc_fail_env : DrawEnv :=
  { rects := rects0
    alloc := aenv0
    shm_fd := 5
    ftruncate_ok := false
    mmap_ok := true
    composed_plane := fun _ => 0 }

/-- C1 evaluated on the code at the failing input: on a fresh-state draw call
(960x600 canvas, new frame) where `ftruncate` fails, the failure path does
close the OS descriptor and unlink the object (the trace contains them, after
the warning), but the driver state still records `mmap_fd = 5` — not the
closed sentinel -1 — and `skip_frame_draw` stays false, so `flip_page` will
act on (and re-close) the stale descriptor: the failure is not fully
contained in the driver's state. -/
theorem draw_ftruncate_fail_state :
    (draw_frame init_state q0 ⟨false, false, none⟩
        ftrunc_fail_env).1.mmap_fd = 5 ∧
    Op.os_close 5 ∈
      (draw_frame init_state q0 ⟨false, false, none⟩ ftrunc_fail_env).2 ∧
    Op.os_shm_unlink ∈
      (draw_frame init_state q0 ⟨false, false, none⟩ ftrunc_fail_env).2 ∧
    Op.warn ftruncate_warning ∈
      (draw_frame init_state q0 ⟨false, false, none⟩ ftrunc_fail_env).2 ∧
    (draw_frame init_state q0 ⟨false, false, none⟩
        ftrunc_fail_env).1.skip_frame_draw = false := by
  decide

/-! ### Claim C2 -/

/-- A draw environment in which `shm_open` itself fails. -/
def shm_fail_env : DrawEnv :=
  { rects := rects0
    alloc := aenv0
    shm_fd := -1
    ftruncate_ok := true
    mmap_ok := true
    composed_plane := fun _ => 0 }

/-- C2 evaluated on the code at the failing input: after a draw call whose
publish step failed at `shm_open`, `skip_frame_draw` is still false, so the
following `flip_page` emits the cursor move and the graphics-transfer command
referencing the never-populated shared-memory object. -/
theorem flip_after_failed_publish_emits :
    Op.os_shm_open_fail ∈
      (draw_frame init_state q0 ⟨false, false, none⟩ shm_fail_env).2 ∧
    (draw_frame init_state q0 ⟨false, false, none⟩
        shm_fail_env).1.skip_frame_draw = false ∧
    Op.gotoxy 3 1 ∈
      (flip_page (draw_frame init_state q0 ⟨false, false, none⟩
        shm_fail_env).1).2 ∧
    Op.gfx_cmd 960 540 SHM_NAME_BASE64 ∈
      (flip_page (draw_frame init_state q0 ⟨false, false, none⟩
        shm_fail_env).1).2 := by
  decide

end VoKitty
